import Mathlib

/-!
Verification of the ctags Kotlin parser (src/parsers/kotlin.c).

The C source is shallowly embedded: the character source is a `List Char`
(`getcFromInputFile` pops the head, `ungetcToInputFile` is modelled by simply
not consuming the character), the token buffer is a `String`, and each
C routine becomes a Lean function that consumes a prefix of the input list
and returns the remaining input.  Loops whose C originals can fail to
terminate (`skip_comment_block` has no EOF check, and `skip_open_close` and
the driver `find_kotlin_tags` call it) take a fuel parameter and return
`none` on fuel exhaustion; loops that consume at least one character per
iteration and stop at EOF are structural recursion on the input list.
-/

namespace Kotlin

/-- enum DeclarationKind from kotlin.c. -/
inductive DeclarationKind where
  | kind_class
  | kind_function
  | kind_typealias
  | kind_const
deriving DecidableEq, Repr

/-- enum KeywordType from kotlin.c. -/
inductive KeywordType where
  | keyword_package
  | keyword_import
  | keyword_class
  | keyword_interface
  | keyword_typealias
  | keyword_fun
  | keyword_val
  | keyword_var
  | keyword_object
  | keyword_other
  | modifier_private
  | modifier_protected
  | modifier_public
  | modifier_internal
  | modifier_sealed
  | modifier_enum
  | modifier_abstract
  | modifier_open
  | modifier_override
  | modifier_final
  | modifier_suspend
  | modifier_const
deriving DecidableEq, Repr

/-- enum TokenType from kotlin.c. -/
inductive TokenType where
  | token_keyword
  | token_identifier
  | token_string
  | token_number
  | token_par_open
  | token_par_close
  | token_curly_open
  | token_curly_close
  | token_square_open
  | token_square_close
  | token_arrow_open
  | token_arrow_close
  | token_sem
  | token_comma
  | token_dot
  | token_star
  | token_eof
  | token_comment_start
  | token_comment_end
  | token_comment_line
  | token_colon
  | token_bax
  | token_other
deriving DecidableEq, Repr

/-- KotlinKeywordTable from kotlin.c: the static spelling-to-code table handed
to the host keyword-lookup mechanism. -/
def KotlinKeywordTable : List (String × KeywordType) :=
  [ ("package", .keyword_package),
    ("import", .keyword_import),
    ("class", .keyword_class),
    ("interface", .keyword_interface),
    ("typealias", .keyword_typealias),
    ("fun", .keyword_fun),
    ("val", .keyword_val),
    ("var", .keyword_var),
    ("object", .keyword_object),
    ("private", .modifier_private),
    ("protected", .modifier_protected),
    ("public", .modifier_public),
    ("internal", .modifier_internal),
    ("sealed", .modifier_sealed),
    ("enum", .modifier_enum),
    ("abstract", .modifier_abstract),
    ("open", .modifier_open),
    ("override", .modifier_override),
    ("final", .modifier_final),
    ("suspend", .modifier_suspend),
    ("const", .modifier_const) ]

/-- lookupKeyword (host primitive): map a spelling to its code via the table;
`none` stands for KEYWORD_NONE. -/
def lookupKeyword (s : String) : Option KeywordType :=
  (KotlinKeywordTable.find? (fun p => p.1 = s)).map (·.2)

/-- The delimiter set installed by init_delimiters in kotlin.c: exactly the
characters whose `delimiters[]` entry is set to 1. -/
def delimiterChars : List Char :=
  [' ', '\r', '\n', '\t', ';', ',', '(', ')', '\x7b', '\x7d', '<', '>', '.']

/-- delimiters[] lookup: a character below code 128 is a delimiter iff it is
in `delimiterChars` (characters at code 128 and above are never delimiters,
matching the `ch >= 0 && ch < 128 && dd[ch] == 1` guard). -/
def delimiters (c : Char) : Bool :=
  c ∈ delimiterChars

/-- struct Token from kotlin.c, without the location fields (line number and
file position play no role in the claims).  The `keyword` field is
`some code` or `none` for KEYWORD_NONE; non-word tokens carry
`some keyword_other`, the value installed at the top of parse_token. -/
structure Token where
  keyword : Option KeywordType
  token : TokenType
  buffer : String
deriving DecidableEq, Repr

/-- Whitespace-skipping loop at the head of parse_token: return the first
character that is not space, CR, LF or tab, with the rest of the input, or
`none` at end of input. -/
def nextNonWs : List Char → Option (Char × List Char)
  | [] => none
  | c :: cs =>
    if c = ' ' ∨ c = '\r' ∨ c = '\n' ∨ c = '\t' then nextNonWs cs
    else some (c, cs)

/-- First loop of parse_number: accept digits and underscores; a dot is
consumed and ends the loop with `end = 0` (third component `false`); any
other character is pushed back and ends it with `end = 1` (`true`). -/
def parse_number_ip : String → List Char → String × List Char × Bool
  | buf, [] => (buf, [], true)
  | buf, c :: cs =>
    if '0' ≤ c ∧ c ≤ '9' then parse_number_ip (buf.push c) cs
    else if c = '_' then parse_number_ip (buf.push c) cs
    else if c = '.' then (buf.push c, cs, false)
    else (buf, c :: cs, true)

/-- Second loop of parse_number (fractional part): digits and underscores,
an optional trailing `f` is consumed; anything else is pushed back. -/
def parse_number_fp : String → List Char → String × List Char
  | buf, [] => (buf, [])
  | buf, c :: cs =>
    if '0' ≤ c ∧ c ≤ '9' then parse_number_fp (buf.push c) cs
    else if c = '_' then parse_number_fp (buf.push c) cs
    else if c = 'f' then (buf.push c, cs)
    else (buf, c :: cs)

/-- parse_number from kotlin.c: the buffer already holds the leading digit. -/
def parse_number (buf : String) (input : List Char) : String × List Char :=
  let r1 := parse_number_ip buf input
  if r1.2.2 then (r1.1, r1.2.1) else parse_number_fp r1.1 r1.2.1

/-- Word-scanning loop at the end of parse_token: accumulate characters into
the buffer until EOF or a delimiter; the delimiter is pushed back. -/
def scan_word : String → List Char → String × List Char
  | buf, [] => (buf, [])
  | buf, c :: cs =>
    if c.toNat < 128 ∧ delimiters c then (buf, c :: cs)
    else scan_word (buf.push c) cs

/-- Build a non-word token (single-character tokens, comment markers, EOF):
its keyword field keeps the keyword_other installed at the top of
parse_token and its buffer is the cleared scratch buffer. -/
def simpleToken (tt : TokenType) : Token :=
  { keyword := some .keyword_other, token := tt, buffer := "" }

/-- parse_token from kotlin.c: skip whitespace, classify the first
character, and either return a single-character token, a comment marker, a
number, or scan a word and resolve it through the keyword table. -/
def parse_token (input : List Char) : Token × List Char :=
  match nextNonWs input with
  | none => (simpleToken .token_eof, [])
  | some (first, rest) =>
    if first = '(' then (simpleToken .token_par_open, rest)
    else if first = ')' then (simpleToken .token_par_close, rest)
    else if first = '\x7b' then (simpleToken .token_curly_open, rest)
    else if first = '\x7d' then (simpleToken .token_curly_close, rest)
    else if first = '[' then (simpleToken .token_square_open, rest)
    else if first = ']' then (simpleToken .token_square_close, rest)
    else if first = '.' then (simpleToken .token_dot, rest)
    else if first = ',' then (simpleToken .token_comma, rest)
    else if first = '<' then (simpleToken .token_arrow_open, rest)
    else if first = '>' then (simpleToken .token_arrow_close, rest)
    else if first = ';' then (simpleToken .token_sem, rest)
    else if first = ':' then (simpleToken .token_colon, rest)
    else if first = '$' then (simpleToken .token_bax, rest)
    else if first = '/' then
      match rest with
      | [] => (simpleToken .token_other, [])
      | second :: rest2 =>
        if second = '/' then (simpleToken .token_comment_line, rest2)
        else if second = '*' then (simpleToken .token_comment_start, rest2)
        else (simpleToken .token_other, second :: rest2)
    else if '0' ≤ first ∧ first ≤ '9' then
      let r := parse_number (String.mk [first]) rest
      ({ keyword := some .keyword_other, token := .token_number, buffer := r.1 }, r.2)
    else
      let r := scan_word (String.mk [first]) rest
      let kw := lookupKeyword r.1
      ({ keyword := kw,
         token := if kw = none then .token_identifier else .token_keyword,
         buffer := r.1 }, r.2)

/-- skip_comment_block from kotlin.c.  The C loop reads a character per
iteration and keeps a one-flag state `c` ("just saw a second star").  It has
no EOF check: at end of input the C routine calls getcFromInputFile forever,
so the embedding takes fuel and answers `none` when the fuel runs out —
in particular it answers `none` for every fuel on inputs with no closer. -/
def skip_comment_block : Nat → Nat → List Char → Option (List Char)
  | 0, _, _ => none
  | fuel + 1, c, input =>
    match input with
    | [] => skip_comment_block fuel 0 []
    | first :: rest =>
      if first = '*' ∧ c = 0 then
        match rest with
        | [] => skip_comment_block fuel 0 []
        | second :: rest2 =>
          if second = '/' then some rest2
          else if second = '*' then skip_comment_block fuel 1 rest2
          else skip_comment_block fuel 0 rest2
      else if first = '/' ∧ c = 1 then some rest
      else skip_comment_block fuel 0 rest

/-- skip_until_eol from kotlin.c: discard characters through the first
newline, or through end of input. -/
def skip_until_eol : List Char → List Char
  | [] => []
  | c :: cs => if c = '\n' then cs else skip_until_eol cs

/-- The if/else-if chain in the body of skip_open_close from kotlin.c: given
the character just read, update the counter of its bracket kind, or handle
`/` with a one-character lookahead (line comments and block comments are
skipped wholesale via the comment skippers, any other lookahead character is
consumed and discarded).  Returns the updated counters and remaining input;
`none` propagates fuel exhaustion from skip_comment_block. -/
def soc_update (fuel : Nat) (pars curly square arrows : Int) (ch : Char)
    (rest : List Char) : Option (Int × Int × Int × Int × List Char) :=
  if ch = '(' then some (pars + 1, curly, square, arrows, rest)
  else if ch = ')' then some (pars - 1, curly, square, arrows, rest)
  else if ch = '\x7b' then some (pars, curly + 1, square, arrows, rest)
  else if ch = '\x7d' then some (pars, curly - 1, square, arrows, rest)
  else if ch = '[' then some (pars, curly, square + 1, arrows, rest)
  else if ch = ']' then some (pars, curly, square - 1, arrows, rest)
  else if ch = '<' then some (pars, curly, square, arrows + 1, rest)
  else if ch = '>' then some (pars, curly, square, arrows - 1, rest)
  else if ch = '/' then
    match rest with
    | [] => some (pars, curly, square, arrows, [])
    | next :: rest2 =>
      if next = '/' then some (pars, curly, square, arrows, skip_until_eol rest2)
      else if next = '*' then
        (skip_comment_block fuel 0 rest2).map
          (fun rest3 => (pars, curly, square, arrows, rest3))
      else some (pars, curly, square, arrows, rest2)
  else some (pars, curly, square, arrows, rest)

/-- Loop of skip_open_close from kotlin.c, with the four nesting counters
explicit.  Each iteration reads a character (EOF returns silently), runs the
`soc_update` chain, and then breaks exactly when the character just read
equals the expected closer and all four counters are simultaneously zero. -/
def skip_open_close_loop :
    Nat → Int → Int → Int → Int → Char → List Char → Option (List Char)
  | 0, _, _, _, _, _, _ => none
  | fuel + 1, pars, curly, square, arrows, expected, input =>
    match input with
    | [] => some []
    | ch :: rest =>
      match soc_update fuel pars curly square arrows ch rest with
      | none => none
      | some (p2, cu2, sq2, ar2, rest2) =>
        if ch = expected ∧ p2 = 0 ∧ sq2 = 0 ∧ cu2 = 0 ∧ ar2 = 0 then
          some rest2
        else
          skip_open_close_loop fuel p2 cu2 sq2 ar2 expected rest2

/-- skip_open_close from kotlin.c: pre-increment the counter of the bracket
kind implied by the expected closer, then run the loop. -/
def skip_open_close (fuel : Nat) (expected : Char) (input : List Char) :
    Option (List Char) :=
  skip_open_close_loop fuel
    (if expected = ')' then 1 else 0)
    (if expected = '\x7d' then 1 else 0)
    (if expected = ']' then 1 else 0)
    (if expected = '>' then 1 else 0)
    expected input

/-- Tag, the output record of make_tag_entry (location fields omitted). -/
structure Tag where
  name : String
  kind : DeclarationKind
deriving DecidableEq, Repr

/-- make_tag_entry from kotlin.c: copy the token buffer into a tag record of
the given kind. -/
def make_tag_entry (t : Token) (kind : DeclarationKind) : Tag :=
  { name := t.buffer, kind := kind }

/-- The class/interface/object branch of find_kotlin_tags: read one token,
emit a class tag if it is an identifier, then skip to end of line. -/
def class_branch (input : List Char) : List Tag × List Char :=
  if (parse_token input).1.token = .token_identifier then
    ([make_tag_entry (parse_token input).1 .kind_class],
      skip_until_eol (parse_token input).2)
  else
    ([], skip_until_eol (parse_token input).2)

/-- The typealias branch of find_kotlin_tags: read one token, emit a
typealias tag if it is an identifier; no end-of-line skip. -/
def typealias_branch (input : List Char) : List Tag × List Char :=
  if (parse_token input).1.token = .token_identifier then
    ([make_tag_entry (parse_token input).1 .kind_typealias], (parse_token input).2)
  else
    ([], (parse_token input).2)

/-- The const branch of find_kotlin_tags: read one token; only if its
keyword code is keyword_val, read another and emit a const tag if that one
is an identifier; in every case skip to end of line afterwards. -/
def const_branch (input : List Char) : List Tag × List Char :=
  if (parse_token input).1.keyword = some .keyword_val then
    if (parse_token (parse_token input).2).1.token = .token_identifier then
      ([make_tag_entry (parse_token (parse_token input).2).1 .kind_const],
        skip_until_eol (parse_token (parse_token input).2).2)
    else
      ([], skip_until_eol (parse_token (parse_token input).2).2)
  else
    ([], skip_until_eol (parse_token input).2)

/-- The name/receiver part of the fun branch of find_kotlin_tags, entered
with the candidate token `t` already read: an identifier followed by a dot
is an extension receiver (the following identifier, if any, is the emitted
function name); an identifier followed by an open paren is the function
name itself; anything else recovers by skipping to end of line. -/
def fun_name_part (t : Token) (input : List Char) : List Tag × List Char :=
  if t.token = .token_identifier then
    if (parse_token input).1.token = .token_dot then
      if (parse_token (parse_token input).2).1.token = .token_identifier then
        ([make_tag_entry (parse_token (parse_token input).2).1 .kind_function],
          (parse_token (parse_token input).2).2)
      else
        ([], (parse_token (parse_token input).2).2)
    else if (parse_token input).1.token = .token_par_open then
      ([make_tag_entry t .kind_function], (parse_token input).2)
    else
      ([], skip_until_eol (parse_token input).2)
  else
    ([], skip_until_eol input)

/-- The fun branch of find_kotlin_tags: read one token; a `<` starts a type
parameter list, skipped with skip_open_close before reading the candidate
token; then delegate to `fun_name_part`. -/
def fun_branch (fuel : Nat) (input : List Char) : Option (List Tag × List Char) :=
  if (parse_token input).1.token = .token_arrow_open then
    match skip_open_close fuel '>' (parse_token input).2 with
    | none => none
    | some rest =>
      some (fun_name_part (parse_token rest).1 (parse_token rest).2)
  else
    some (fun_name_part (parse_token input).1 (parse_token input).2)

/-- True of the ten keyword codes the driver treats as pure modifiers
(note: modifier_enum and modifier_const are not among them). -/
def is_pure_modifier (k : Option KeywordType) : Bool :=
  k = some .modifier_public ∨ k = some .modifier_internal ∨
  k = some .modifier_private ∨ k = some .modifier_abstract ∨
  k = some .modifier_protected ∨ k = some .modifier_open ∨
  k = some .modifier_final ∨ k = some .modifier_override ∨
  k = some .modifier_sealed ∨ k = some .modifier_suspend

/-- The loop of find_kotlin_tags from kotlin.c, accumulating emitted tags in
order.  Fuel bounds the number of loop iterations and feeds the comment and
bracket skippers; `none` means the fuel ran out (or a comment skip never
terminated). -/
def find_tags_loop : Nat → List Char → List Tag → Option (List Tag)
  | 0, _, _ => none
  | fuel + 1, input, acc =>
    if (parse_token input).1.token = .token_eof then some acc
    else if (parse_token input).1.token = .token_comment_start then
      match skip_comment_block fuel 0 (parse_token input).2 with
      | none => none
      | some rest => find_tags_loop fuel rest acc
    else if (parse_token input).1.token = .token_comment_line then
      find_tags_loop fuel (skip_until_eol (parse_token input).2) acc
    else if (parse_token input).1.token = .token_keyword then
      if is_pure_modifier (parse_token input).1.keyword then
        find_tags_loop fuel (parse_token input).2 acc
      else if (parse_token input).1.keyword = some .keyword_class ∨
              (parse_token input).1.keyword = some .keyword_interface ∨
              (parse_token input).1.keyword = some .keyword_object then
        find_tags_loop fuel (class_branch (parse_token input).2).2
          (acc ++ (class_branch (parse_token input).2).1)
      else if (parse_token input).1.keyword = some .keyword_typealias then
        find_tags_loop fuel (typealias_branch (parse_token input).2).2
          (acc ++ (typealias_branch (parse_token input).2).1)
      else if (parse_token input).1.keyword = some .modifier_const then
        find_tags_loop fuel (const_branch (parse_token input).2).2
          (acc ++ (const_branch (parse_token input).2).1)
      else if (parse_token input).1.keyword = some .keyword_fun then
        match fun_branch fuel (parse_token input).2 with
        | none => none
        | some b => find_tags_loop fuel b.2 (acc ++ b.1)
      else
        find_tags_loop fuel (skip_until_eol (parse_token input).2) acc
    else
      find_tags_loop fuel (parse_token input).2 acc

/-- find_kotlin_tags from kotlin.c: run the driver loop on the whole input
with an empty tag list. -/
def find_kotlin_tags (fuel : Nat) (input : List Char) : Option (List Tag) :=
  find_tags_loop fuel input []

/-- The behavior the spec's words ascribe to the block-comment skipper
(stop at the first occurrence of the closer): return the suffix right after
the first occurrence of the two-character sequence star slash, or `none`
when there is no occurrence.  Used only for comparison with
`skip_comment_block`. -/
def first_close_skip : List Char → Option (List Char)
  | [] => none
  | '*' :: '/' :: rest => some rest
  | _ :: rest => first_close_skip rest

/-- The reserved-word spellings listed in the data-model section of the
spec (the keyword-code list of §3). -/
def specReservedWords : List String :=
  ["package", "import", "class", "interface", "object", "typealias", "fun",
   "val", "var", "private", "protected", "public", "internal", "sealed",
   "enum", "abstract", "open", "override", "final", "suspend", "const"]

/-- A string the Lexer can classify as an identifier: some input makes
parse_token return a token_identifier token carrying exactly this text. -/
def produced_as_identifier (name : String) : Prop :=
  ∃ s, (parse_token s).1.token = TokenType.token_identifier ∧
    (parse_token s).1.buffer = name

/-- C2: the line-comment skipper and the balanced-bracket skipper terminate
silently at end of input, but the block-comment skipper does not: kotlin.c's
skip_comment_block has no EOF check, so on an input that ends inside an
unterminated block comment it re-reads EOF forever — the fuelled embedding
answers `none` for every fuel and every flag state at end of input. -/
theorem skip_routines_at_eof :
    skip_until_eol [] = [] ∧
    (∀ fuel p cu sq ar e, skip_open_close_loop (fuel + 1) p cu sq ar e [] = some []) ∧
    (∀ fuel c, skip_comment_block fuel c [] = none) := by
  refine ⟨rfl, fun fuel p cu sq ar e => rfl, fun fuel => ?_⟩
  induction fuel with
  | zero => intro c; rfl
  | succ n ih =>
    intro c
    show skip_comment_block n 0 [] = none
    exact ih 0

/-- C3 counterexample: on the single-line input
`class Foo { fun bar() {} }` the Recognizer emits only the class tag `Foo`;
no function tag named `bar` is in the output, because the class branch
skips the rest of the line unconditionally. -/
theorem class_same_line_function_missed :
    find_kotlin_tags 100 "class Foo \x7b fun bar() \x7b\x7d \x7d".toList =
      some [{ name := "Foo", kind := .kind_class }] ∧
    Tag.mk "bar" .kind_function ∉ [Tag.mk "Foo" DeclarationKind.kind_class] := by
  constructor
  · decide
  · decide

/-- C3 amended: running the Recognizer on `class Foo { fun bar() {} }`
emits exactly one class tag named `Foo` and zero function tags — the
unconditional skip to end of line after the class name consumes the rest of
the single-line input, so `bar` is never scanned. -/
theorem class_same_line_only_class_tag :
    find_kotlin_tags 100 "class Foo \x7b fun bar() \x7b\x7d \x7d".toList =
      some [{ name := "Foo", kind := .kind_class }] := by
  decide

/-- C7 counterexample: the block-comment skipper does not always stop at
the first occurrence of the closer.  On `***/ */X` the first star slash
occurrence ends at index 3, but the scanner pairs the first two stars, sees
the third star with its flag down, and runs on to the second closer: it
returns the suffix after `*/X`, not the suffix after `***/`. -/
theorem skip_comment_block_not_first_close :
    skip_comment_block 100 0 "***/ */X".toList = some ['X'] ∧
    first_close_skip "***/ */X".toList = some [' ', '*', '/', 'X'] ∧
    skip_comment_block 100 0 "***/ */X".toList ≠
      first_close_skip "***/ */X".toList := by
  refine ⟨by decide, by decide, by decide⟩

/-- C7 amended: the block-comment skipper ignores comment nesting — a
nested opener never delays termination, so skipping from inside
`/* outer /* inner */ still outer */` ends right after the first closer,
agreeing with a plain first-occurrence scan there — but it does not always
stop at the first textual closer: a run of stars can desynchronize its
saw-a-star pairing. -/
theorem skip_comment_block_ignores_nesting :
    skip_comment_block 200 0 " outer /* inner */ still outer */Z".toList =
      some " still outer */Z".toList ∧
    skip_comment_block 200 0 " outer /* inner */ still outer */Z".toList =
      first_close_skip " outer /* inner */ still outer */Z".toList := by
  refine ⟨by decide, by decide⟩

/-- C8 counterexample: the keyword table registered by the parser holds
twenty-one entries, not eighteen. -/
theorem keyword_table_not_eighteen :
    KotlinKeywordTable.length = 21 ∧ KotlinKeywordTable.length ≠ 18 := by
  decide

/-- C8 amended: the keyword table is pre-populated with exactly twenty-one
reserved words, namely the reserved-word spellings listed in the spec's
data-model section (each spelling appears exactly once, and the two lists
contain the same spellings). -/
theorem keyword_table_twenty_one :
    KotlinKeywordTable.length = 21 ∧
    (KotlinKeywordTable.map Prod.fst).Nodup ∧
    (∀ s ∈ KotlinKeywordTable.map Prod.fst, s ∈ specReservedWords) ∧
    (∀ s ∈ specReservedWords, s ∈ KotlinKeywordTable.map Prod.fst) := by
  refine ⟨by decide, by decide, by decide, by decide⟩

/-- C4: after a const keyword, the const branch emits a tag iff the next
token carries the keyword code of `val` and the token after that is an
identifier (and then the tag carries that identifier's text); in every case
the branch's continuation is exactly skip_until_eol applied to the input
remaining after the tokens it read — and skip_until_eol is characterized
independently as dropping everything through the first newline (everything
to end of input when there is none).  Concretely, `const val MAX = 100`
emits exactly one const tag named `MAX`, and `val MAX = 100` emits no tag
at all. -/
theorem const_requires_val_then_identifier :
    (∀ input,
      (const_branch input).1 =
        (if (parse_token input).1.keyword = some KeywordType.keyword_val ∧
            (parse_token (parse_token input).2).1.token = TokenType.token_identifier
         then [Tag.mk (parse_token (parse_token input).2).1.buffer .kind_const]
         else []) ∧
      (const_branch input).2 =
        (if (parse_token input).1.keyword = some KeywordType.keyword_val
         then skip_until_eol (parse_token (parse_token input).2).2
         else skip_until_eol (parse_token input).2)) ∧
    (∀ r : List Char,
      skip_until_eol r = (r.dropWhile (fun c => c != '\n')).drop 1) ∧
    find_kotlin_tags 100 "const val MAX = 100".toList =
      some [{ name := "MAX", kind := .kind_const }] ∧
    find_kotlin_tags 100 "val MAX = 100".toList = some [] := by
  refine ⟨fun input => ⟨?_, ?_⟩, fun r => ?_, by decide, by decide⟩
  · unfold const_branch
    split_ifs with h1 h2 <;> simp_all [make_tag_entry]
  · unfold const_branch
    split_ifs with h1 h2 <;> simp_all
  · induction r with
    | nil => rfl
    | cons c cs ih =>
      by_cases hc : c = '\n'
      · subst hc
        simp [skip_until_eol, List.dropWhile]
      · have hb : (c != '\n') = true := by simp [hc]
        simp [skip_until_eol, List.dropWhile, hc, hb, ih]

/-- C5: in the fun branch, a candidate identifier followed by a dot is an
extension receiver: one more token is read, a function tag is emitted
exactly for that second token when it is an identifier, and the receiver
token is not emitted.  Concretely, `fun String.reversed(): String` emits
exactly one function tag named `reversed` and no tag named `String`. -/
theorem fun_extension_receiver :
    (∀ t input, t.token = TokenType.token_identifier →
      (parse_token input).1.token = TokenType.token_dot →
      fun_name_part t input =
        ((if (parse_token (parse_token input).2).1.token = TokenType.token_identifier
          then [Tag.mk (parse_token (parse_token input).2).1.buffer .kind_function]
          else []),
         (parse_token (parse_token input).2).2)) ∧
    find_kotlin_tags 100 "fun String.reversed(): String".toList =
      some [{ name := "reversed", kind := .kind_function }] ∧
    (∀ g ∈ [Tag.mk "reversed" DeclarationKind.kind_function], g.name ≠ "String") := by
  refine ⟨fun t input ht hdot => ?_, by decide, by decide⟩
  unfold fun_name_part
  rw [if_pos ht, if_pos hdot]
  split_ifs with h <;> simp [make_tag_entry]

/-- C5 witness: the general receiver statement applied to a concrete
identifier token followed by a dot. -/
theorem fun_extension_receiver_witness :
    fun_name_part ⟨none, TokenType.token_identifier, "x"⟩ ".y(abc".toList =
      ([Tag.mk "y" DeclarationKind.kind_function], "(abc".toList) := by
  have h := fun_extension_receiver.1 ⟨none, TokenType.token_identifier, "x"⟩
    ".y(abc".toList (by decide) (by decide)
  rw [h]
  decide

/-- C6: skip_open_close pre-increments the counter of the bracket kind
implied by each of the four expected closers; the loop counts all four
bracket kinds independently (each of the eight bracket characters adjusts
exactly its own counter, leaving the other three and the input untouched);
a loop step on any character stops exactly when that character equals the
expected closer and all four updated counters are simultaneously zero,
and otherwise continues with the updated counters; end of input stops the
loop silently; and skipping `T : Comparable<T>>X` with expected closer `>`
runs past the inner `>` and stops at the outer one. -/
theorem skip_balanced_contract :
    (∀ fuel input,
      skip_open_close fuel ')' input = skip_open_close_loop fuel 1 0 0 0 ')' input ∧
      skip_open_close fuel '\x7d' input =
        skip_open_close_loop fuel 0 1 0 0 '\x7d' input ∧
      skip_open_close fuel ']' input = skip_open_close_loop fuel 0 0 1 0 ']' input ∧
      skip_open_close fuel '>' input = skip_open_close_loop fuel 0 0 0 1 '>' input) ∧
    (∀ fuel (p cu sq ar : Int) rest,
      soc_update fuel p cu sq ar '(' rest = some (p + 1, cu, sq, ar, rest) ∧
      soc_update fuel p cu sq ar ')' rest = some (p - 1, cu, sq, ar, rest) ∧
      soc_update fuel p cu sq ar '\x7b' rest = some (p, cu + 1, sq, ar, rest) ∧
      soc_update fuel p cu sq ar '\x7d' rest = some (p, cu - 1, sq, ar, rest) ∧
      soc_update fuel p cu sq ar '[' rest = some (p, cu, sq + 1, ar, rest) ∧
      soc_update fuel p cu sq ar ']' rest = some (p, cu, sq - 1, ar, rest) ∧
      soc_update fuel p cu sq ar '<' rest = some (p, cu, sq, ar + 1, rest) ∧
      soc_update fuel p cu sq ar '>' rest = some (p, cu, sq, ar - 1, rest)) ∧
    (∀ fuel (p cu sq ar : Int) e ch rest (p2 cu2 sq2 ar2 : Int) rest2,
      soc_update fuel p cu sq ar ch rest = some (p2, cu2, sq2, ar2, rest2) →
      skip_open_close_loop (fuel + 1) p cu sq ar e (ch :: rest) =
        (if ch = e ∧ p2 = 0 ∧ sq2 = 0 ∧ cu2 = 0 ∧ ar2 = 0 then some rest2
         else skip_open_close_loop fuel p2 cu2 sq2 ar2 e rest2)) ∧
    (∀ fuel p cu sq ar e, skip_open_close_loop (fuel + 1) p cu sq ar e [] = some []) ∧
    skip_open_close 100 '>' "T : Comparable<T>>X".toList = some ['X'] := by
  refine ⟨fun fuel input => ⟨rfl, rfl, rfl, rfl⟩,
    fun fuel p cu sq ar rest => ⟨rfl, rfl, rfl, rfl, rfl, rfl, rfl, rfl⟩,
    ?_, fun fuel p cu sq ar e => rfl, by decide⟩
  intro fuel p cu sq ar e ch rest p2 cu2 sq2 ar2 rest2 h
  rw [skip_open_close_loop, h]

/-- C6 witness: the stop-condition statement applied with expected closer
`)` on a pre-incremented paren counter: reading the closer brings every
counter to zero, so the loop stops there. -/
theorem skip_balanced_contract_witness :
    skip_open_close_loop 6 1 0 0 0 ')' [')', 'x'] = some ['x'] := by
  have h := skip_balanced_contract.2.2.1 5 1 0 0 0 ')' ')' ['x'] 0 0 0 0 ['x']
    (by decide)
  rw [h]
  decide

/-- C9: the identifier/keyword scan stops only at the thirteen installed
delimiter characters or end of input; every other character, including
punctuation such as a colon or an equals sign, is accumulated into the
token text — so `const val MAX:Int = 1` emits a const tag named `MAX:Int`
and `typealias A=B` emits a typealias tag named `A=B`. -/
theorem identifier_scan_stops_only_at_delimiters :
    delimiterChars =
      [' ', '\r', '\n', '\t', ';', ',', '(', ')', '\x7b', '\x7d', '<', '>', '.'] ∧
    delimiterChars.length = 13 ∧
    (∀ buf c cs, ¬(c.toNat < 128 ∧ delimiters c) →
      scan_word buf (c :: cs) = scan_word (buf.push c) cs) ∧
    (∀ buf c cs, (c.toNat < 128 ∧ delimiters c) →
      scan_word buf (c :: cs) = (buf, c :: cs)) ∧
    (∀ buf, scan_word buf [] = (buf, [])) ∧
    find_kotlin_tags 100 "const val MAX:Int = 1".toList =
      some [{ name := "MAX:Int", kind := .kind_const }] ∧
    find_kotlin_tags 100 "typealias A=B".toList =
      some [{ name := "A=B", kind := .kind_typealias }] := by
  refine ⟨rfl, by decide, fun buf c cs h => ?_, fun buf c cs h => ?_,
    fun buf => rfl, by decide, by decide⟩
  · show (if c.toNat < 128 ∧ delimiters c then (buf, c :: cs)
          else scan_word (buf.push c) cs) = _
    rw [if_neg h]
  · show (if c.toNat < 128 ∧ delimiters c then (buf, c :: cs)
          else scan_word (buf.push c) cs) = _
    rw [if_pos h]

/-- C9 witness: the accumulation statement applied at the colon (not a
delimiter, so it joins the token text) and the stop statement applied at
the space (a delimiter). -/
theorem identifier_scan_stops_only_at_delimiters_witness :
    scan_word "M" [':', 'A'] = scan_word "M:" ['A'] ∧
    scan_word "M" [' '] = ("M", [' ']) := by
  constructor
  · have h := identifier_scan_stops_only_at_delimiters.2.2.1 "M" ':' ['A'] (by decide)
    exact h
  · exact identifier_scan_stops_only_at_delimiters.2.2.2.1 "M" ' ' [] (by decide)

/-- C10: inside the bracket skipper, a `/` whose lookahead is neither `/`
nor `*` consumes and discards that lookahead character without touching any
nesting counter; consequently a bracket right after a `/` is not counted —
skipping to `>` over `/> X` swallows the closer and runs to end of input,
while over `> X` it stops at the closer. -/
theorem slash_lookahead_discarded :
    (∀ fuel p cu sq ar next rest, next ≠ '/' → next ≠ '*' →
      soc_update fuel p cu sq ar '/' (next :: rest) = some (p, cu, sq, ar, rest)) ∧
    skip_open_close 100 '>' "/> X".toList = some [] ∧
    skip_open_close 100 '>' "> X".toList = some [' ', 'X'] := by
  refine ⟨fun fuel p cu sq ar next rest h1 h2 => ?_, by decide, by decide⟩
  show (if next = '/' then some (p, cu, sq, ar, skip_until_eol rest)
        else if next = '*' then
          (skip_comment_block fuel 0 rest).map
            (fun rest3 => (p, cu, sq, ar, rest3))
        else some (p, cu, sq, ar, rest)) = some (p, cu, sq, ar, rest)
  rw [if_neg h1, if_neg h2]

/-- C10 witness: the discard statement applied with a `>` lookahead: the
closer is swallowed and no counter changes. -/
theorem slash_lookahead_discarded_witness :
    soc_update 5 0 0 0 1 '/' ['>', 'a'] = some (0, 0, 0, 1, ['a']) :=
  slash_lookahead_discarded.1 5 0 0 0 1 '>' ['a'] (by decide) (by decide)

/-- Every tag the class branch emits names the text of a token the Lexer
classified as an identifier. -/
theorem class_branch_only_identifiers (input : List Char) :
    ∀ g ∈ (class_branch input).1, produced_as_identifier g.name := by
  unfold class_branch
  split_ifs with h
  · intro g hg
    rw [List.mem_singleton] at hg
    subst hg
    exact ⟨input, h, rfl⟩
  · intro g hg
    simp at hg

/-- Every tag the typealias branch emits names the text of a token the
Lexer classified as an identifier. -/
theorem typealias_branch_only_identifiers (input : List Char) :
    ∀ g ∈ (typealias_branch input).1, produced_as_identifier g.name := by
  unfold typealias_branch
  split_ifs with h
  · intro g hg
    rw [List.mem_singleton] at hg
    subst hg
    exact ⟨input, h, rfl⟩
  · intro g hg
    simp at hg

/-- Every tag the const branch emits names the text of a token the Lexer
classified as an identifier. -/
theorem const_branch_only_identifiers (input : List Char) :
    ∀ g ∈ (const_branch input).1, produced_as_identifier g.name := by
  unfold const_branch
  split_ifs with h1 h2
  · intro g hg
    rw [List.mem_singleton] at hg
    subst hg
    exact ⟨(parse_token input).2, h2, rfl⟩
  · intro g hg
    simp at hg
  · intro g hg
    simp at hg

/-- Every tag the fun-branch name part emits names the text of a token the
Lexer classified as an identifier, given that the candidate token `t` was
itself produced by the Lexer (expressed by the hypothesis `ht`). -/
theorem fun_name_part_only_identifiers (t : Token) (input : List Char)
    (ht : t.token = TokenType.token_identifier → produced_as_identifier t.buffer) :
    ∀ g ∈ (fun_name_part t input).1, produced_as_identifier g.name := by
  unfold fun_name_part
  split_ifs with h1 h2 h3 h4
  · intro g hg
    rw [List.mem_singleton] at hg
    subst hg
    exact ⟨(parse_token input).2, h3, rfl⟩
  · intro g hg
    simp at hg
  · intro g hg
    rw [List.mem_singleton] at hg
    subst hg
    exact ht h1
  · intro g hg
    simp at hg
  · intro g hg
    simp at hg

/-- Every tag the fun branch emits names the text of a token the Lexer
classified as an identifier. -/
theorem fun_branch_only_identifiers (fuel : Nat) (input : List Char)
    (b : List Tag × List Char) (hb : fun_branch fuel input = some b) :
    ∀ g ∈ b.1, produced_as_identifier g.name := by
  unfold fun_branch at hb
  split_ifs at hb with h1
  · cases hsoc : skip_open_close fuel '>' (parse_token input).2 with
    | none =>
      rw [hsoc] at hb
      exact absurd hb (by simp)
    | some rest =>
      rw [hsoc] at hb
      have hb2 := Option.some.inj hb
      subst hb2
      exact fun_name_part_only_identifiers (parse_token rest).1 (parse_token rest).2
        (fun h => ⟨rest, h, rfl⟩)
  · have hb2 := Option.some.inj hb
    subst hb2
    exact fun_name_part_only_identifiers (parse_token input).1 (parse_token input).2
      (fun h => ⟨input, h, rfl⟩)

/-- Invariant of the driver loop: if every tag already accumulated names an
identifier-classified token, so does every tag in a successful result. -/
theorem find_tags_loop_only_identifiers :
    ∀ (fuel : Nat) (input : List Char) (acc tags : List Tag),
      (∀ g ∈ acc, produced_as_identifier g.name) →
      find_tags_loop fuel input acc = some tags →
      ∀ g ∈ tags, produced_as_identifier g.name := by
  intro fuel
  induction fuel with
  | zero =>
    intro input acc tags hacc h
    exact absurd h (by simp [find_tags_loop])
  | succ n ih =>
    intro input acc tags hacc h
    rw [find_tags_loop] at h
    split_ifs at h with h1 h2 h3 h4 h5 h6 h7 h8 h9
    · rw [Option.some.inj h] at hacc
      exact hacc
    · cases hsc : skip_comment_block n 0 (parse_token input).2 with
      | none => rw [hsc] at h; exact absurd h (by simp)
      | some rest =>
        rw [hsc] at h
        exact ih rest acc tags hacc h
    · exact ih _ acc tags hacc h
    · exact ih _ acc tags hacc h
    · refine ih _ _ tags ?_ h
      intro g hg
      rcases List.mem_append.mp hg with hg | hg
      · exact hacc g hg
      · exact class_branch_only_identifiers _ g hg
    · refine ih _ _ tags ?_ h
      intro g hg
      rcases List.mem_append.mp hg with hg | hg
      · exact hacc g hg
      · exact typealias_branch_only_identifiers _ g hg
    · refine ih _ _ tags ?_ h
      intro g hg
      rcases List.mem_append.mp hg with hg | hg
      · exact hacc g hg
      · exact const_branch_only_identifiers _ g hg
    · cases hfb : fun_branch n (parse_token input).2 with
      | none => rw [hfb] at h; exact absurd h (by simp)
      | some b =>
        rw [hfb] at h
        refine ih _ _ tags ?_ h
        intro g hg
        rcases List.mem_append.mp hg with hg | hg
        · exact hacc g hg
        · exact fun_branch_only_identifiers n _ b hfb g hg
    · exact ih _ acc tags hacc h
    · exact ih _ acc tags hacc h

/-- C1: every tag record emitted by a successful run of the Recognizer uses
as its name the text of a token the Lexer classified as token_identifier:
for each emitted tag there is a lexer input on which parse_token returns an
identifier-classified token whose buffer is exactly the tag's name — no
keyword, operator, punctuation or number token is ever passed as a name. -/
theorem emitted_tags_are_identifier_tokens (fuel : Nat) (input : List Char)
    (tags : List Tag) (h : find_kotlin_tags fuel input = some tags) :
    ∀ g ∈ tags, produced_as_identifier g.name :=
  find_tags_loop_only_identifiers fuel input [] tags (by simp) h

/-- C1 witness: the invariant applied to a run on `object Obj`, whose one
emitted tag is named by the identifier token `Obj`. -/
theorem emitted_tags_are_identifier_tokens_witness :
    produced_as_identifier "Obj" := by
  have h := emitted_tags_are_identifier_tokens 50 "object Obj".toList
    [{ name := "Obj", kind := .kind_class }] (by decide)
  exact h { name := "Obj", kind := .kind_class } (by simp)

end Kotlin

